import Mathlib

/-!
Formal model of the pagination / analytics core of the Freshservice MCP
server (src/freshservice_mcp/server.py).

Python dictionaries are modelled as ordered association lists over a small
dynamic value type `PyVal`; Python ints are `ℤ`/`ℕ`, floats are `ℚ`
(so every arithmetic step of the source is mirrored exactly), and
fallible code returns `Except`/`Option`.  The external HTTP collaborator
is modelled as a function from page number to a response outcome.
-/

/-- Model of a Python scalar value as stored in a record dict. -/
inductive PyVal where
  | pyNone : PyVal
  | pyInt : ℤ → PyVal
  | pyStr : String → PyVal
deriving DecidableEq, Repr

/-- Python truthiness for the values above (None, 0 and "" are falsy). -/
def PyVal.truthy : PyVal → Bool
  | .pyNone => false
  | .pyInt n => decide (n ≠ 0)
  | .pyStr s => decide (s ≠ "")

/-- Python str() of a value, as used by f-string interpolation. -/
def PyVal.str : PyVal → String
  | .pyNone => "None"
  | .pyInt n => toString n
  | .pyStr s => s

/-- A record (a Python dict as it arrives from a JSON body): an ordered
association list from string keys to values. -/
abbrev Rec := List (String × PyVal)

/-- Model of dict.get(k): first binding of the key, None when absent. -/
def Rec.get (t : Rec) (k : String) : PyVal :=
  match t.find? (fun p => p.1 == k) with
  | some p => p.2
  | none => .pyNone

/-- Model of dict.get(k, d): the default is used only when the key is
absent (a stored falsy value is returned as-is). -/
def Rec.getD (t : Rec) (k : String) (d : PyVal) : PyVal :=
  match t.find? (fun p => p.1 == k) with
  | some p => p.2
  | none => d

/-- Model of `k in dict`. -/
def Rec.hasKey (t : Rec) (k : String) : Bool :=
  (t.find? (fun p => p.1 == k)).isSome

/-- Ordered-dict assignment d[k] = v: overwrite in place when the key
exists, append otherwise (Python dicts preserve insertion order). -/
def dictInsert {κ ν : Type} [DecidableEq κ] : List (κ × ν) → κ → ν → List (κ × ν)
  | [], k, v => [(k, v)]
  | (k0, v0) :: rest, k, v =>
      if k0 = k then (k0, v) :: rest else (k0, v0) :: dictInsert rest k v

/-- Lookup in an ordered dict, as an Option (first binding wins, as in a
Python dict whose keys are unique). -/
def lookupVal {κ ν : Type} [DecidableEq κ] : List (κ × ν) → κ → Option ν
  | [], _ => none
  | (k0, v) :: rest, k => if k0 = k then some v else lookupVal rest k

/-- Membership test in an ordered dict (`k in d`). -/
def hasVal {κ ν : Type} [DecidableEq κ] : List (κ × ν) → κ → Bool
  | [], _ => false
  | (k0, _) :: rest, k => if k0 = k then true else hasVal rest k

/-- Model of defaultdict(int) increment d[k] += 1. -/
def bump {κ : Type} [DecidableEq κ] : List (κ × ℕ) → κ → List (κ × ℕ)
  | [], k => [(k, 1)]
  | (k0, v) :: rest, k =>
      if k0 = k then (k0, v + 1) :: rest else (k0, v) :: bump rest k

/-- Sum of the counters of a dict (Python sum(d.values())). -/
def sumVals {κ : Type} (m : List (κ × ℕ)) : ℕ := (m.map (fun p => p.2)).sum

/-! ### Pagination cursor parser (parse_link_header, server.py 148-177)

The two regular expressions of the source are modelled directly with
Python re semantics: leftmost match, lazy `(.+?)` groups, `.` not
matching a newline, `\s*` on Python's whitespace class. -/

/-- Python regex \s class membership. -/
def isPySpace (c : Char) : Bool :=
  c == ' ' || c == '\t' || c == '\n' || c == '\r' || c.toNat == 11 || c.toNat == 12

/-- Numeric value of a digit run (Python int() on a digit string). -/
def digitsVal (cs : List Char) : ℕ :=
  cs.foldl (fun a c => 10 * a + (c.toNat - 48)) 0

/-- Model of re.search(r'page=(\d+)', url): leftmost occurrence of the
literal "page=" followed by at least one digit; the group is the maximal
digit run. -/
def pageScan : List Char → Option ℕ
  | 'p' :: 'a' :: 'g' :: 'e' :: '=' :: rest =>
      let ds := rest.takeWhile Char.isDigit
      if ds = [] then pageScan ('a' :: 'g' :: 'e' :: '=' :: rest)
      else some (digitsVal ds)
  | _ :: tail => pageScan tail
  | [] => none

/-- Lazy group `(.+?)"`: shortest non-empty newline-free prefix that is
followed by a double quote. -/
def lazyGroup (accRev : List Char) : List Char → Option String
  | [] => none
  | c :: rest =>
      if c = '"' ∧ accRev ≠ [] then some ⟨accRev.reverse⟩
      else if c = '\n' then none
      else lazyGroup (c :: accRev) rest

/-- Match `\s*rel="(.+?)"` at the start of the char list. -/
def relAfter (cs : List Char) : Option String :=
  match cs.dropWhile isPySpace with
  | 'r' :: 'e' :: 'l' :: '=' :: '"' :: rest => lazyGroup [] rest
  | _ => none

/-- Backtracking match of `(.+?)>;\s*rel="(.+?)"` after an opening '<':
the url group grows lazily one character at a time (never across a
newline) until the remainder of the pattern matches. -/
def tryUrl (accRev : List Char) : List Char → Option (String × String)
  | '>' :: ';' :: tail =>
      match (if accRev = [] then none else relAfter tail) with
      | some rel => some (⟨accRev.reverse⟩, rel)
      | none => tryUrl ('>' :: accRev) (';' :: tail)
  | c :: tail => if c = '\n' then none else tryUrl (c :: accRev) tail
  | [] => none

/-- Model of re.search(r'<(.+?)>;\s*rel="(.+?)"', link): try every start
position left to right; a match must begin at a '<'. -/
def linkRelScan : List Char → Option (String × String)
  | '<' :: tail =>
      match tryUrl [] tail with
      | some r => some r
      | none => linkRelScan tail
  | _ :: tail => linkRelScan tail
  | [] => none

/-- The initial pagination dict {"next": None, "prev": None}. -/
def emptyPagination : List (String × Option ℕ) := [("next", none), ("prev", none)]

/-- Model of str.split(','): the segments between the commas. -/
def splitComma (cur : List Char) : List Char → List (List Char)
  | [] => [cur.reverse]
  | c :: rest =>
      if c = ',' then cur.reverse :: splitComma [] rest
      else splitComma (c :: cur) rest

/-- The pagination entry one comma chunk contributes: its relation and
page number when the chunk matches the link regex and its url carries a
page parameter. -/
def chunkEntry (link : List Char) : Option (String × ℕ) :=
  match linkRelScan link with
  | some (url, rel) =>
      match pageScan url.data with
      | some n => some (rel, n)
      | none => none
  | none => none

/-- One iteration of the parse_link_header loop (server.py 168-175):
matching chunks assign pagination[rel] = page, others are skipped. -/
def pagStep (pag : List (String × Option ℕ)) (link : List Char) :
    List (String × Option ℕ) :=
  match chunkEntry link with
  | some rn => dictInsert pag rn.1 (some rn.2)
  | none => pag

/-- Model of parse_link_header (server.py 148-177).  Splits the header on
commas; for every chunk that matches the link/rel regex and whose url
carries a page number, assigns pagination[rel] = page. -/
def parseLinkHeader (linkHeader : String) : List (String × Option ℕ) :=
  if linkHeader = "" then emptyPagination
  else (splitComma [] linkHeader.data).foldl pagStep emptyPagination

/-- pagination_info.get("next") as consumed by every walker loop. -/
def linkNext (h : String) : Option ℕ :=
  match lookupVal (parseLinkHeader h) "next" with
  | some v => v
  | none => none

/-- Python truthiness of an optional page number (None and 0 are falsy),
as used in `if not pagination_info.get("next")`. -/
def truthyPage : Option ℕ → Bool
  | none => false
  | some n => decide (n ≠ 0)

/-! ### HTTP collaborator model -/

/-- Outcome of a failed page fetch: either an httpx.HTTPStatusError with
the (optional) response status code and parsed/raw body, or any other
exception with its message. -/
inductive FetchErr where
  | httpStatus (statusCode : Option ℤ) (details : Option String) (msg : String)
  | otherExc (msg : String)
deriving DecidableEq, Repr

/-- One successful page response, reduced to what the loops consume: the
extracted record array (data.get(key, [])) and the Link header. -/
structure PageResp where
  recs : List Rec
  linkHeader : String
deriving DecidableEq, Repr

/-- A paged endpoint: page number to outcome.  The query string, auth
headers and URL building are constant inside one walk and are therefore
absorbed into the choice of the environment function. -/
abbrev PageEnv := ℕ → Except FetchErr PageResp

/-- A structured failure dict {"success": False, "error": ...,
"status_code": ..., "details": ...}. -/
structure FailInfo where
  error : String
  status_code : Option ℤ
  details : Option String
deriving DecidableEq, Repr

/-- Build the failure dict from a fetch error, with the message prefixes
of the two except-branches (the generic branch carries no status code or
details keys, modelled as none). -/
def mkFail (pfxHttp pfxOther : String) : FetchErr → FailInfo
  | .httpStatus c d m => ⟨pfxHttp ++ m, c, d⟩
  | .otherExc m => ⟨pfxOther ++ m, none, none⟩

/-! ### Bulk fetch walker: search_tickets_all (server.py 3424-3540) -/

/-- The success dict of search_tickets_all. -/
structure SearchOk where
  tickets : List Rec
  total_fetched : ℕ
  pages_fetched : ℕ
  truncated : Bool
deriving DecidableEq, Repr

/-- Field projection of one ticket (server.py 3492):
a dict comprehension over fields, keeping only keys present in the
ticket; duplicate field names collapse onto their first occurrence. -/
def filterFieldsRec (fs : List String) (t : Rec) : Rec :=
  fs.foldl (fun acc f =>
    if acc.hasKey f then acc
    else
      match t.find? (fun p => p.1 == f) with
      | some p => acc ++ [(f, p.2)]
      | none => acc) []

/-- Python `if fields:` guard: None and the empty list disable the
projection. -/
def applyFields (fields : Option (List String)) (ts : List Rec) : List Rec :=
  match fields with
  | none => ts
  | some [] => ts
  | some fs => ts.map (filterFieldsRec fs)

/-- The fetch loop of search_tickets_all (server.py 3473-3532), with an
explicit fuel bound standing in for `while True` (theorems are stated at
a sufficiently large fuel). -/
def searchLoop (env : PageEnv) (maxResults : ℕ) (fields : Option (List String)) :
    ℕ → ℕ → List Rec → Except FailInfo SearchOk
  | 0, _, _ => .error ⟨"fuel exhausted", none, none⟩
  | f + 1, page, acc =>
    match env page with
    | .error e => .error (mkFail "Failed to search tickets: " "Unexpected error: " e)
    | .ok resp =>
      if resp.recs = [] then .ok ⟨acc, acc.length, page, false⟩
      else
        let tickets := applyFields fields resp.recs
        let acc2 := acc ++ tickets
        if maxResults ≤ acc2.length then
          .ok ⟨acc2.take maxResults, (acc2.take maxResults).length, page, true⟩
        else if tickets.length < 30 ∧ truthyPage (linkNext resp.linkHeader) = false then
          .ok ⟨acc2, acc2.length, page, false⟩
        else searchLoop env maxResults fields f (page + 1) acc2

/-- Model of search_tickets_all (server.py 3424-3540): clamp the cap at
1000, reject caps below 1 before any fetch, then walk. -/
def searchTicketsAll (env : PageEnv) (maxResults : ℤ) (fields : Option (List String))
    (fuel : ℕ) : Except FailInfo SearchOk :=
  let mr := if maxResults > 1000 then 1000 else maxResults
  if mr < 1 then .error ⟨"max_results must be at least 1", none, none⟩
  else searchLoop env mr.toNat fields fuel 1 []

/-- The uncapped collection loop shared by get_ticket_stats (3618-3663),
get_agent_workload (3816-3861) and get_team_comparison (4020-4065):
stop on an empty page, or on a short page whose Link header carries no
truthy next cursor; otherwise advance to page + 1. -/
def uncappedWalk (env : PageEnv) : ℕ → ℕ → List Rec → Except FetchErr (List Rec)
  | 0, _, _ => .error (.otherExc "fuel exhausted")
  | f + 1, page, acc =>
    match env page with
    | .error e => .error e
    | .ok resp =>
      if resp.recs = [] then .ok acc
      else
        let acc2 := acc ++ resp.recs
        if resp.recs.length < 30 ∧ truthyPage (linkNext resp.linkHeader) = false then
          .ok acc2
        else uncappedWalk env f (page + 1) acc2

/-! ### Lookup cache: get_agent_lookup (server.py 3269-3421) -/

/-- The directory-refresh fetch loop of get_agent_lookup (3312-3342 and
3364-3388): collect every page's records and stop as soon as the parsed
Link header carries no truthy "next" page; otherwise jump to that page.
(The source folds each page directly into the directory dict; since dict
construction is a left fold, folding the concatenated record list below
is the same computation.) -/
def drainLoop (env : PageEnv) : ℕ → ℕ → List Rec → Except FetchErr (List Rec)
  | 0, _, _ => .error (.otherExc "fuel exhausted")
  | f + 1, page, acc =>
    match env page with
    | .error e => .error e
    | .ok resp =>
      let acc2 := acc ++ resp.recs
      match linkNext resp.linkHeader with
      | some p2 => if p2 ≠ 0 then drainLoop env f p2 acc2 else .ok acc2
      | none => .ok acc2

/-- Agent directory entry {name, email}. -/
structure AgentInfo where
  name : PyVal
  email : PyVal
deriving DecidableEq, Repr

abbrev AgentsDict := List (PyVal × AgentInfo)
abbrev GroupsDict := List (PyVal × PyVal)

/-- Agent projection of get_agent_lookup (3323-3333): the full name is
"first last" stripped, falling back to the raw email value when the
stripped concatenation is empty. -/
def buildAgentsDict (recs : List Rec) : AgentsDict :=
  recs.foldl (fun d a =>
    let aid := a.get "id"
    let fn := a.getD "first_name" (.pyStr "")
    let ln := a.getD "last_name" (.pyStr "")
    let email := a.getD "email" (.pyStr "")
    let fullName := (fn.str ++ " " ++ ln.str).trim
    let nameVal := if fullName ≠ "" then PyVal.pyStr fullName else email
    dictInsert d aid ⟨nameVal, email⟩) []

/-- Group projection of get_agent_lookup (3376-3379): the name field,
with a synthesized "Group-<id>" label when the field is absent. -/
def buildGroupsDict (recs : List Rec) : GroupsDict :=
  recs.foldl (fun d g =>
    let gid := g.get "id"
    let gname := g.getD "name" (.pyStr ("Group-" ++ gid.str))
    dictInsert d gid gname) []

/-- A refreshed lookup-cache value.  The module-level cache holds either
nothing (its three slots are None at process start) or one such value:
the source only ever writes the three slots together and treats the
cache as valid only when all three are non-None. -/
structure CacheVal where
  agents : AgentsDict
  groups : GroupsDict
  timestamp : ℚ
deriving DecidableEq, Repr

/-- Result dict of get_agent_lookup. -/
inductive LookupRes where
  | success (agents : AgentsDict) (groups : GroupsDict) (cachedAt : ℚ) (cacheAge : ℚ)
  | failure (info : FailInfo)
deriving DecidableEq, Repr

/-- The stale/empty-cache branch of get_agent_lookup (3304-3421): drain
the agents endpoint, then the groups endpoint; on either failure return
the failure dict and leave the cache untouched; on success replace the
cache wholesale. -/
def lookupRefresh (envA envG : PageEnv) (now : ℚ) (cache : Option CacheVal)
    (fuel : ℕ) : Option CacheVal × LookupRes :=
  match drainLoop envA fuel 1 [] with
  | .error e =>
      (cache, .failure (mkFail "Failed to fetch agents: "
        "Unexpected error fetching agents: " e))
  | .ok arecs =>
    match drainLoop envG fuel 1 [] with
    | .error e =>
        (cache, .failure (mkFail "Failed to fetch groups: "
          "Unexpected error fetching groups: " e))
    | .ok grecs =>
        let c : CacheVal := ⟨buildAgentsDict arecs, buildGroupsDict grecs, now⟩
        (some c, .success c.agents c.groups now 0)

/-- Model of get_agent_lookup (3269-3421): serve the cached value while
it is younger than the 300-second TTL, refresh otherwise.  `now` is the
wall clock at entry; the result pairs the cache value after the call
with the returned dict. -/
def getAgentLookup (envA envG : PageEnv) (now : ℚ) (cache : Option CacheVal)
    (fuel : ℕ) : Option CacheVal × LookupRes :=
  match cache with
  | some c =>
      if now - c.timestamp < 300 then
        (some c, .success c.agents c.groups c.timestamp (now - c.timestamp))
      else lookupRefresh envA envG now cache fuel
  | none => lookupRefresh envA envG now cache fuel

/-! ### Canonical backing collection -/

/-- Page p of a backing collection served in 30-record pages with no
Link header: the canonical cursor-less backing store. -/
def chunkAt (all : List Rec) (p : ℕ) : List Rec := (all.drop ((p - 1) * 30)).take 30

/-- The endpoint serving `all` in 30-record pages, every fetch
succeeding, never emitting a cursor. -/
def pagedEnv (all : List Rec) : PageEnv := fun p => .ok ⟨chunkAt all p, ""⟩

/-! ### Aggregation helpers (server.py 4149-4226) -/

/-- Model of _map_status_name (4172-4189): a fixed id-to-name table with
a synthesized "Status-<id>" fallback; the argument is the raw value of
ticket.get("status"). -/
def mapStatusName (v : PyVal) : String :=
  if v = .pyInt 2 then "Open"
  else if v = .pyInt 3 then "Pending"
  else if v = .pyInt 4 then "Resolved"
  else if v = .pyInt 5 then "Closed"
  else if v = .pyInt 6 then "In Progress"
  else if v = .pyInt 7 then "Pending Return"
  else "Status-" ++ v.str

/-- Model of _map_priority_name (4192-4207). -/
def mapPriorityName (v : PyVal) : String :=
  if v = .pyInt 1 then "Low"
  else if v = .pyInt 2 then "Medium"
  else if v = .pyInt 3 then "High"
  else if v = .pyInt 4 then "Urgent"
  else "Priority-" ++ v.str

/-- Model of _calculate_resolution_time (4210-4226), parameterized by
the external ISO-8601 parser `iso` (datetime.fromisoformat composed with
the Z-suffix replacement), yielding epoch seconds when the string
parses.  Non-string inputs raise inside the try block and thus also
yield None. -/
def calcResolutionTime (iso : String → Option ℚ) : PyVal → PyVal → Option ℚ
  | .pyStr c, .pyStr r =>
      match iso c, iso r with
      | some tc, some tr => some ((tr - tc) / 3600)
      | _, _ => none
  | _, _ => none

/-! ### Ticket statistics fold (server.py 3665-3707) -/

/-- Status key of one ticket in the stats fold (3672-3675). -/
def statusKeyOf (t : Rec) : String := mapStatusName (t.get "status")

/-- Priority key (3677-3680). -/
def priorityKeyOf (t : Rec) : String := mapPriorityName (t.get "priority")

/-- Agent key (3682-3690): directory name for a truthy responder found
in the directory, a synthesized "Agent-<id>" label for a truthy
responder missing from it, "Unassigned" for a falsy responder. -/
def agentKeyOf (agentsLookup : AgentsDict) (t : Rec) : PyVal :=
  let rid := t.get "responder_id"
  if rid.truthy then
    match lookupVal agentsLookup rid with
    | some i => i.name
    | none => .pyStr ("Agent-" ++ rid.str)
  else .pyStr "Unassigned"

/-- Type key (3692-3697): the raw type value when truthy, else the
literal "Unknown". -/
def typeKeyOf (t : Rec) : PyVal :=
  let v := t.get "type"
  if v.truthy then v else .pyStr "Unknown"

/-- One counting dimension of the stats fold: a defaultdict(int)
increment per ticket. -/
def countBy {κ : Type} [DecidableEq κ] (key : Rec → κ) (ts : List Rec) : List (κ × ℕ) :=
  ts.foldl (fun m t => bump m (key t)) []

/-! ### Rounding and averages -/

/-- Round-half-to-even on a rational: Python's round() on floats that
represent these values exactly. -/
def halfEven (q : ℚ) : ℤ :=
  let f := ⌊q⌋
  let r := q - f
  if r < 1 / 2 then f
  else if 1 / 2 < r then f + 1
  else if f % 2 = 0 then f else f + 1

/-- Python round(x, n). -/
def roundTo (n : ℕ) (q : ℚ) : ℚ := (halfEven (q * 10 ^ n) : ℚ) / 10 ^ n

/-- Python `a or b` on record values. -/
def pyOr (a b : PyVal) : PyVal := if a.truthy then a else b

/-- The resolution-time collection loop (3888-3897 and 4079-4088): for
each resolved/closed ticket with truthy creation and resolution/update
timestamps, append the computed hour difference when it parses. -/
def resolutionTimes (iso : String → Option ℚ) (ts : List Rec) : List ℚ :=
  ts.foldl (fun acc t =>
    if t.get "status" = .pyInt 4 ∨ t.get "status" = .pyInt 5 then
      let c := t.get "created_at"
      let r := pyOr (t.get "resolved_at") (t.get "updated_at")
      if c.truthy ∧ r.truthy then
        match calcResolutionTime iso c r with
        | some q => acc ++ [q]
        | none => acc
      else acc
    else acc) []

/-- avg = sum/len when the list is non-empty, None otherwise (3899-3902
and 4090-4092). -/
def avgOpt (l : List ℚ) : Option ℚ :=
  if l = [] then none else some (l.sum / l.length)

/-- The output formatting `round(x, 2) if x else None` (3912) and
`round(x, 2) if x else None` (4122): Python truthiness maps both a None
and a 0.0 average to None. -/
def reportedAvg (a : Option ℚ) : Option ℚ :=
  match a with
  | some q => if q ≠ 0 then some (roundTo 2 q) else none
  | none => none

/-! ### Agent workload (server.py 3722-3927) -/

/-- Stable insertion of one element: it goes after every already-placed
element that the Bool preorder puts before-or-equal to it. -/
def stableInsert {α : Type} (le : α → α → Bool) (a : α) : List α → List α
  | [] => [a]
  | b :: rest => if le b a then b :: stableInsert le a rest else a :: b :: rest

/-- Stable sort by a Bool total preorder (the behavior of Python's
stable list.sort / sorted), in a kernel-computable insertion
formulation. -/
def stableSortBy {α : Type} (le : α → α → Bool) (l : List α) : List α :=
  l.foldl (fun acc a => stableInsert le a acc) []

/-- Per-agent metrics row of get_agent_workload (3904-3914). -/
structure AgentMetrics where
  agent_id : PyVal
  agent_name : PyVal
  email : PyVal
  tickets_assigned : ℕ
  tickets_resolved : ℕ
  tickets_closed : ℕ
  tickets_open : ℕ
  avg_resolution_hours : Option ℚ
  resolution_times : List ℚ
deriving DecidableEq, Repr

/-- defaultdict(list) append into the bucket of a key. -/
def bucketAdd {κ : Type} [DecidableEq κ] : List (κ × List Rec) → κ → Rec → List (κ × List Rec)
  | [], k, t => [(k, [t])]
  | (k0, l) :: rest, k, t =>
      if k0 = k then (k0, l ++ [t]) :: rest else (k0, l) :: bucketAdd rest k t

/-- Grouping by truthy responder_id (3863-3868); tickets with a falsy
responder are excluded. -/
def groupByResponder (ts : List Rec) : List (PyVal × List Rec) :=
  ts.foldl (fun m t =>
    let rid := t.get "responder_id"
    if rid.truthy then bucketAdd m rid t else m) []

/-- sum(1 for t in tickets if t.get("status") == n) (3883-3885,
4069-4071). -/
def countStatus (ts : List Rec) (n : ℤ) : ℕ :=
  (ts.filter (fun t => t.get "status" == PyVal.pyInt n)).length

/-- One agent's metrics (3872-3914). -/
def agentMetricsOf (iso : String → Option ℚ) (agentsLookup : AgentsDict)
    (rid : PyVal) (ts : List Rec) : AgentMetrics :=
  let an :=
    match lookupVal agentsLookup rid with
    | some i => (i.name, i.email)
    | none => (PyVal.pyStr ("Agent-" ++ rid.str), PyVal.pyStr "unknown")
  let rtimes := resolutionTimes iso ts
  { agent_id := rid
    agent_name := an.1
    email := an.2
    tickets_assigned := ts.length
    tickets_resolved := countStatus ts 4
    tickets_closed := countStatus ts 5
    tickets_open := countStatus ts 2
    avg_resolution_hours := reportedAvg (avgOpt rtimes)
    resolution_times := rtimes.map (roundTo 2) }

/-- The per-agent section of get_agent_workload (3863-3917): group by
responder, compute metrics, stable-sort descending by assigned count
(list.sort with reverse=True is stable). -/
def workloadAgents (iso : String → Option ℚ) (agentsLookup : AgentsDict)
    (ts : List Rec) : List AgentMetrics :=
  stableSortBy (fun x y => decide (y.tickets_assigned ≤ x.tickets_assigned))
    ((groupByResponder ts).map (fun p => agentMetricsOf iso agentsLookup p.1 p.2))

/-- Exceptions of _parse_period as observed at its call site: a caught
ValueError, or an AttributeError / OverflowError that the caller does
not catch. -/
inductive PeriodErr where
  | valueError (msg : String)
  | attributeError
  | overflowError
deriving DecidableEq, Repr

/-- Digit run with single underscores between digits, as accepted by
Python int() (PEP 515). -/
def digitsUnd : List Char → Bool
  | [] => false
  | [c] => c.isDigit
  | c :: '_' :: rest => c.isDigit && digitsUnd rest
  | c :: rest => c.isDigit && digitsUnd rest

/-- Python int() on a string: optional surrounding whitespace, optional
sign, digits with underscore separators. -/
def pyIntParse (cs0 : List Char) : Option ℤ :=
  let cs := ((cs0.dropWhile isPySpace).reverse.dropWhile isPySpace).reverse
  match cs with
  | '+' :: rest =>
      if digitsUnd rest then some ((digitsVal (rest.filter (fun c => c ≠ '_')) : ℕ) : ℤ)
      else none
  | '-' :: rest =>
      if digitsUnd rest then some (-((digitsVal (rest.filter (fun c => c ≠ '_')) : ℕ) : ℤ))
      else none
  | rest =>
      if digitsUnd rest then some ((digitsVal (rest.filter (fun c => c ≠ '_')) : ℕ) : ℤ)
      else none

/-- Epoch seconds of datetime.min and datetime.max: outside this range
datetime subtraction raises OverflowError. -/
def dtMinSec : ℚ := -62135596800

def dtMaxSec : ℚ := 253402300800

/-- Model of _parse_period (4151-4169) on the Optional[str] period
argument; now is datetime.now() in epoch seconds.  A None period raises
AttributeError at period.endswith; a malformed string raises ValueError
with the source's message (caught by the caller); a day count pushing
the start outside the datetime range raises OverflowError. -/
def parsePeriod (now : ℚ) (period : Option String) : Except PeriodErr ℚ :=
  match period with
  | none => .error .attributeError
  | some s =>
      match s.data.reverse with
      | 'd' :: restRev =>
          match pyIntParse restRev.reverse with
          | some days =>
              let t := now - days * 86400
              if t < dtMinSec ∨ dtMaxSec < t then .error .overflowError else .ok t
          | none => .error (.valueError ("Invalid period format: " ++ s))
      | _ =>
          .error (.valueError ("Invalid period format: " ++ s ++
            ". Use format like '7d', '30d', '90d'"))

/-- Discriminated failure dict of a public analytics operation. -/
inductive WFailure where
  | validation (msg : String)
  | lookupFailure (inner : FailInfo)
  | fetchFailure (info : FailInfo)
deriving DecidableEq, Repr

/-- Success dict of get_agent_workload (3919-3927). -/
structure WorkloadOut where
  agents : List AgentMetrics
  dateStart : String
  dateEnd : String
  groupName : Option PyVal
deriving DecidableEq, Repr

/-- Value returned (as opposed to raised) by get_agent_workload. -/
inductive WorkloadRes where
  | success (o : WorkloadOut)
  | failure (f : WFailure)
deriving DecidableEq, Repr

/-- An exception escaping get_agent_workload's own handlers. -/
inductive PyExc where
  | attributeError
  | overflowError
deriving DecidableEq, Repr

/-- The filter expression of get_agent_workload (3784-3794): with an
agent id present the query filters solely by responder_id, otherwise by
group_id; the date bounds are appended in both cases. -/
def workloadQuery (agent_id group_id : Option ℤ) (ca cb : String) : String :=
  let base :=
    match agent_id with
    | some a => "responder_id:" ++ toString a
    | none =>
        match group_id with
        | some g => "group_id:" ++ toString g
        | none => "group_id:None"
  base ++ " AND created_at:>'" ++ ca ++ "' AND created_at:<'" ++ cb ++ "'"

/-- groups_lookup.get(group_id) if group_id else None (3926): a falsy
(absent or zero) group id yields None. -/
def groupNameOf (groupsLookup : GroupsDict) (group_id : Option ℤ) : Option PyVal :=
  match group_id with
  | some g => if g ≠ 0 then lookupVal groupsLookup (.pyInt g) else none
  | none => none

/-- get_agent_workload once the date window is fixed (3781-3927):
created_before defaults to now, the query is built, the directory
lookup's failure aborts, the walk's failure aborts, and the per-agent
fold produces the success dict. -/
def workloadAfterDates (iso : String → Option ℚ) (isoFmt : ℚ → String) (now : ℚ)
    (lookup : Except FailInfo (AgentsDict × GroupsDict)) (env : String → PageEnv)
    (agent_id group_id : Option ℤ) (ca : String) (created_before : Option String)
    (fuel : ℕ) : WorkloadRes :=
  let cb := match created_before with | some d => d | none => isoFmt now
  let q := workloadQuery agent_id group_id ca cb
  match lookup with
  | .error fi => .failure (.lookupFailure fi)
  | .ok dirs =>
      match uncappedWalk (env q) fuel 1 [] with
      | .error e =>
          .failure (.fetchFailure (mkFail "Failed to fetch tickets: "
            "Unexpected error: " e))
      | .ok ts =>
          .success ⟨workloadAgents iso dirs.1 ts, ca, cb, groupNameOf dirs.2 group_id⟩

/-- Model of get_agent_workload (3722-3927).  External pieces are
parameters: iso the timestamp parser, isoFmt datetime.isoformat, now the
wall clock, lookup the outcome of the get_agent_lookup call, env the
ticket-filter endpoint keyed by the query string.  The outer Except
carries exceptions that escape the operation. -/
def getAgentWorkload (iso : String → Option ℚ) (isoFmt : ℚ → String) (now : ℚ)
    (lookup : Except FailInfo (AgentsDict × GroupsDict)) (env : String → PageEnv)
    (agent_id group_id : Option ℤ) (period : Option String)
    (created_after created_before : Option String) (fuel : ℕ) :
    Except PyExc WorkloadRes :=
  if agent_id = none ∧ group_id = none then
    .ok (.failure (.validation "Either agent_id or group_id must be provided"))
  else
    match created_after with
    | some ca =>
        .ok (workloadAfterDates iso isoFmt now lookup env agent_id group_id ca
          created_before fuel)
    | none =>
        match parsePeriod now period with
        | .error (.valueError m) => .ok (.failure (.validation m))
        | .error .attributeError => .error .attributeError
        | .error .overflowError => .error .overflowError
        | .ok t =>
            .ok (workloadAfterDates iso isoFmt now lookup env agent_id group_id
              (isoFmt t) created_before fuel)

/-! ### Team comparison (server.py 3930-4146) -/

/-- Per-group comparison row (4114-4124). -/
structure GroupComp where
  group_id : ℤ
  group_name : PyVal
  total_tickets : ℕ
  open_tickets : ℕ
  resolved_tickets : ℕ
  closed_tickets : ℕ
  closure_rate : ℚ
  avg_resolution_hours : Option ℚ
  top_agents : List (PyVal × ℕ)
deriving DecidableEq, Repr

/-- The exact (pre-rounding) closure rate of a ticket set (4074-4076):
(resolved + closed) / total, guarded to 0.0 on an empty set. -/
def exactClosureRate (ts : List Rec) : ℚ :=
  if 0 < ts.length then ((countStatus ts 4 + countStatus ts 5 : ℕ) : ℚ) / ts.length
  else 0

/-- Top-5 agent leaderboard (4094-4111): ticket count per truthy
responder, stable-sorted descending, first five, names resolved. -/
def topAgents (agentsLookup : AgentsDict) (ts : List Rec) : List (PyVal × ℕ) :=
  let counts := ts.foldl (fun m t =>
    let rid := t.get "responder_id"
    if rid.truthy then bump m rid else m) []
  ((stableSortBy (fun x y => decide (y.2 ≤ x.2)) counts).take 5).map (fun p =>
    match lookupVal agentsLookup p.1 with
    | some i => (i.name, p.2)
    | none => (PyVal.pyStr ("Agent-" ++ p.1.str), p.2))

/-- One group's analysis in get_team_comparison (4067-4124), given the
group's collected ticket set. -/
def analyzeGroup (iso : String → Option ℚ) (agentsLookup : AgentsDict)
    (groupsLookup : GroupsDict) (gid : ℤ) (ts : List Rec) : GroupComp :=
  { group_id := gid
    group_name :=
      (lookupVal groupsLookup (.pyInt gid)).getD (.pyStr ("Group-" ++ toString gid))
    total_tickets := ts.length
    open_tickets := countStatus ts 2
    resolved_tickets := countStatus ts 4
    closed_tickets := countStatus ts 5
    closure_rate := roundTo 3 (exactClosureRate ts)
    avg_resolution_hours := reportedAvg (avgOpt (resolutionTimes iso ts))
    top_agents := topAgents agentsLookup ts }

/-- Success dict of get_team_comparison (4135-4146). -/
structure TeamOut where
  comparison : List GroupComp
  totalAllGroups : ℕ
  averageClosureRate : ℚ
deriving DecidableEq, Repr

/-- Value returned by get_team_comparison. -/
inductive TeamRes where
  | success (o : TeamOut)
  | failure (f : WFailure)
deriving DecidableEq, Repr

/-- The per-group loop of get_team_comparison (4010-4133), accumulating
comparison rows, the overall ticket total and the exact closure rates,
aborting on the first group whose collection fails; at the end the
summary averages the exact rates and rounds. -/
def teamLoop (iso : String → Option ℚ) (aDir : AgentsDict) (gDir : GroupsDict)
    (envOf : ℤ → PageEnv) (fuel : ℕ) :
    List ℤ → List GroupComp → ℕ → List ℚ → TeamRes
  | [], comps, tot, rates =>
      let avg : ℚ := if rates = [] then 0 else rates.sum / rates.length
      .success ⟨comps, tot, roundTo 3 avg⟩
  | g :: rest, comps, tot, rates =>
      match uncappedWalk (envOf g) fuel 1 [] with
      | .error e =>
          .failure (.fetchFailure (mkFail
            ("Failed to fetch tickets for group " ++ toString g ++ ": ")
            ("Unexpected error for group " ++ toString g ++ ": ") e))
      | .ok ts =>
          teamLoop iso aDir gDir envOf fuel rest
            (comps ++ [analyzeGroup iso aDir gDir g ts])
            (tot + ts.length) (rates ++ [exactClosureRate ts])

/-- Model of get_team_comparison (3930-4146) after directory resolution:
group-count validation, then the sequential per-group analysis.  The
date window only feeds each group's query and is absorbed into envOf;
the preceding get_agent_lookup call is modelled by getAgentLookup, its
directories entering here as inputs. -/
def teamComparisonCore (iso : String → Option ℚ) (aDir : AgentsDict)
    (gDir : GroupsDict) (envOf : ℤ → PageEnv) (group_ids : List ℤ) (fuel : ℕ) :
    TeamRes :=
  if group_ids.length < 2 then
    .failure (.validation "At least 2 group_ids must be provided for comparison")
  else if 10 < group_ids.length then
    .failure (.validation "Maximum 10 groups can be compared at once")
  else teamLoop iso aDir gDir envOf fuel group_ids [] 0 []

/-- Concatenation of k consecutive pages starting at page p. -/
def pagesFrom (rs : ℕ → List Rec) (p : ℕ) : ℕ → List Rec
  | 0 => []
  | k + 1 => rs p ++ pagesFrom rs (p + 1) k

/-- A fully successful endpoint built from per-page records and
headers. -/
def mkEnv (rs : ℕ → List Rec) (hs : ℕ → String) : PageEnv := fun p => .ok ⟨rs p, hs p⟩

/-- Does the cached value trigger a refresh: absent, or age at or beyond
the 300-second TTL (the condition complementary to the cache-valid test
of server.py 3290-3294)? -/
def cacheStale (cache : Option CacheVal) (now : ℚ) : Bool :=
  match cache with
  | none => true
  | some c => decide (¬ now - c.timestamp < 300)

deriving instance DecidableEq for Except

/-! ### Concrete fixtures used to evaluate the model on closed inputs -/

/-- A one-field record. -/
def oneRec : Rec := [("id", .pyInt 1)]

/-- A resolved ticket with no other fields. -/
def tickR : Rec := [("status", .pyInt 4)]

/-- An open ticket with no other fields. -/
def tickO : Rec := [("status", .pyInt 2)]

/-- n distinct one-field records. -/
def mkRecs (n : ℕ) : List Rec := (List.range n).map (fun i => [("id", PyVal.pyInt i)])

/-- A cursor-less backing endpoint with pages of sizes [30, 1]. -/
def env31 : PageEnv := fun p =>
  if p = 1 then .ok ⟨mkRecs 30, ""⟩
  else if p = 2 then .ok ⟨[[("id", PyVal.pyInt 30)]], ""⟩
  else .ok ⟨[], ""⟩

/-- An agents endpoint whose very first fetch fails with a 500. -/
def envFail : PageEnv := fun _ => .error (.httpStatus (some 500) (some "boom") "E")

/-- A groups endpoint serving one empty page. -/
def envEmptyPage : PageEnv := fun _ => .ok ⟨[], ""⟩

/-- A per-group ticket endpoint: group 1 holds three tickets (one
resolved), every other group none. -/
def envTeam : ℤ → PageEnv := fun g =>
  if g = 1 then fun p => if p = 1 then .ok ⟨[tickR, tickO, tickO], ""⟩ else .ok ⟨[], ""⟩
  else envEmptyPage

/-- A query-indexed ticket endpoint serving no tickets at all. -/
def envNoTickets : String → PageEnv := fun _ => envEmptyPage

/-- A timestamp parser recognizing one fixed instant. -/
def iso2024 : String → Option ℚ :=
  fun s => if s = "2024-01-01T00:00:00" then some 1704067200 else none

/-- A trivial isoformat stand-in. -/
def fmt0 : ℚ → String := fun _ => "t"

/-- A ticket resolved at the instant of its creation: its resolution
time is exactly 0.0 hours. -/
def zeroResTicket : Rec :=
  [("status", .pyInt 4), ("responder_id", .pyInt 9),
   ("created_at", .pyStr "2024-01-01T00:00:00"),
   ("resolved_at", .pyStr "2024-01-01T00:00:00")]

/-- The per-page records of a cursor-emitting endpoint: one record on
page 1, nothing after. -/
def rsW : ℕ → List Rec := fun q => if q = 1 then [oneRec] else []

/-- Its headers: never a cursor (page 2 on is empty). -/
def hsW : ℕ → String := fun _ => ""

example : parseLinkHeader "" = [("next", none), ("prev", none)] := by decide
example :
    parseLinkHeader "<http://x?page=3>; rel=\"next\"" =
      [("next", some 3), ("prev", none)] := by decide
example :
    parseLinkHeader "<http://x?page=3>; rel=\"next\", <http://x?page=1>; rel=\"prev\"" =
      [("next", some 3), ("prev", some 1)] := by decide
example :
    parseLinkHeader "<http://x?page=3>; rel=\"first\"" =
      [("next", none), ("prev", none), ("first", some 3)] := by decide
example : parseLinkHeader "garbage, <nope>; rel=" = [("next", none), ("prev", none)] := by
  decide
example : linkNext "" = none := by decide

/-! ## Shared lemmas -/

lemma sumVals_bump {κ : Type} [DecidableEq κ] (m : List (κ × ℕ)) (k : κ) :
    sumVals (bump m k) = sumVals m + 1 := by
  induction m with
  | nil => simp [bump, sumVals]
  | cons p rest ih =>
      obtain ⟨k0, v⟩ := p
      by_cases h : k0 = k
      · simp [bump, h, sumVals]; omega
      · simp [bump, h, sumVals] at ih ⊢; omega

lemma sumVals_countBy {κ : Type} [DecidableEq κ] (key : Rec → κ) (ts : List Rec) :
    sumVals (countBy key ts) = ts.length := by
  suffices h : ∀ m : List (κ × ℕ),
      sumVals (ts.foldl (fun m t => bump m (key t)) m) = sumVals m + ts.length by
    simpa [countBy, sumVals] using h []
  induction ts with
  | nil => intro m; simp
  | cons t rest ih =>
      intro m
      rw [List.foldl_cons, ih, sumVals_bump, List.length_cons]
      omega

lemma hasVal_dictInsert {κ ν : Type} [DecidableEq κ] (m : List (κ × ν)) (k k2 : κ) (v : ν)
    (h : hasVal m k2 = true) : hasVal (dictInsert m k v) k2 = true := by
  induction m with
  | nil => simp [hasVal] at h
  | cons p rest ih =>
      obtain ⟨k0, v0⟩ := p
      by_cases hk : k0 = k
      · simp only [dictInsert, if_pos hk]
        simp only [hasVal] at h ⊢
        by_cases hk2 : k0 = k2
        · simp [hk2]
        · simp only [if_neg hk2] at h ⊢
          exact h
      · simp only [dictInsert, if_neg hk]
        simp only [hasVal] at h ⊢
        by_cases hk2 : k0 = k2
        · simp [hk2]
        · simp only [if_neg hk2] at h ⊢
          exact ih h

lemma hasVal_pagFold (chunks : List (List Char)) (pag : List (String × Option ℕ))
    (k : String) (h : hasVal pag k = true) :
    hasVal (chunks.foldl pagStep pag) k = true := by
  induction chunks generalizing pag with
  | nil => simpa using h
  | cons c rest ih =>
      rw [List.foldl_cons]
      apply ih
      cases h2 : chunkEntry c with
      | none => simpa [pagStep, h2] using h
      | some rn =>
          simp only [pagStep, h2]
          exact hasVal_dictInsert _ _ _ _ h

lemma pagFold_const (chunks : List (List Char)) (pag : List (String × Option ℕ))
    (h : ∀ link ∈ chunks, chunkEntry link = none) :
    chunks.foldl pagStep pag = pag := by
  induction chunks generalizing pag with
  | nil => rfl
  | cons c rest ih =>
      have hc : chunkEntry c = none := h c (by simp)
      have hr : ∀ link ∈ rest, chunkEntry link = none := fun l hl => h l (by simp [hl])
      simp [List.foldl_cons, pagStep, hc, ih _ hr]

/-! ## Claim theorems -/

/-- C2 counterexample: an entry whose relation is "first" is not
skipped; the parser records it under its own key, so the result mapping
has a key other than "next" and "prev", contradicting the claim that
those are its only keys. -/
theorem parseLinkHeaderForeignRel :
    parseLinkHeader "<http://x?page=3>; rel=\"first\"" =
      [("next", none), ("prev", none), ("first", some 3)] := by decide

/-- C2 amended: parse_link_header is total; its result always carries
the "next" and "prev" keys, and a header all of whose comma chunks are
malformed or lack a page parameter yields exactly the all-empty
mapping; however a well-formed entry with a relation other than
next/prev is recorded under that relation as an extra key, not skipped
(see the counterexample). -/
theorem parseLinkHeaderShape (s : String) :
    hasVal (parseLinkHeader s) "next" = true ∧
    hasVal (parseLinkHeader s) "prev" = true ∧
    ((∀ link ∈ splitComma [] s.data, chunkEntry link = none) →
      parseLinkHeader s = emptyPagination) := by
  unfold parseLinkHeader
  by_cases hs : s = ""
  · simp [hs, emptyPagination, hasVal]
  · simp only [hs, if_false]
    refine ⟨?_, ?_, fun h => pagFold_const _ _ h⟩ <;>
      (apply hasVal_pagFold; decide)

/-- Witness for parseLinkHeaderShape at a header with no valid entry. -/
theorem parseLinkHeaderShape_w :
    parseLinkHeader "garbage, <nope>; rel=" = emptyPagination :=
  (parseLinkHeaderShape "garbage, <nope>; rel=").2.2 (by decide)

/-- C9: every ticket contributes exactly one count in each dimension of
the get_ticket_stats fold, with unknown or missing ids mapped to the
synthesized fallback labels ("Status-<id>", "Priority-<id>",
"Agent-<id>", "Unassigned", "Unknown") rather than dropped, so the
by_status, by_priority, by_agent and by_type counters each sum to the
total ticket count. -/
theorem statsFoldLaw (agentsLookup : AgentsDict) (ts : List Rec) :
    sumVals (countBy statusKeyOf ts) = ts.length ∧
    sumVals (countBy priorityKeyOf ts) = ts.length ∧
    sumVals (countBy (agentKeyOf agentsLookup) ts) = ts.length ∧
    sumVals (countBy typeKeyOf ts) = ts.length ∧
    mapStatusName (.pyInt 99) = "Status-99" ∧
    mapStatusName .pyNone = "Status-None" ∧
    mapPriorityName (.pyInt 9) = "Priority-9" ∧
    agentKeyOf [] [("responder_id", .pyInt 7)] = .pyStr "Agent-7" ∧
    agentKeyOf agentsLookup [] = .pyStr "Unassigned" ∧
    typeKeyOf [] = .pyStr "Unknown" :=
  ⟨sumVals_countBy _ ts, sumVals_countBy _ ts, sumVals_countBy _ ts,
   sumVals_countBy _ ts, by decide, by decide, by decide, by decide, rfl, rfl⟩

/-- C8 counterexample: a cap of 1001 (above the 1000 ceiling) does not
produce a validation failure; the walk proceeds with the clamped cap and
succeeds. -/
theorem searchCapClampedRuns :
    searchTicketsAll (pagedEnv []) 1001 none 3 = .ok ⟨[], 0, 1, false⟩ := by decide

/-- C8 amended: a cap below 1 is rejected with the structured validation
failure before any fetch and for every environment, but a cap above the
1000 ceiling is not rejected: it is silently clamped to 1000 and the
walk proceeds identically to a cap of exactly 1000. -/
theorem searchCapPolicy :
    (∀ (env : PageEnv) (K : ℤ) (fields : Option (List String)) (fuel : ℕ), K < 1 →
      searchTicketsAll env K fields fuel =
        .error ⟨"max_results must be at least 1", none, none⟩) ∧
    (∀ (env : PageEnv) (K : ℤ) (fields : Option (List String)) (fuel : ℕ), 1000 < K →
      searchTicketsAll env K fields fuel = searchTicketsAll env 1000 fields fuel) := by
  constructor
  · intro env K fields fuel hK
    have h1 : ¬ (1000 : ℤ) < K := by omega
    simp [searchTicketsAll, h1, hK]
  · intro env K fields fuel hK
    have h1 : ¬ (1000 : ℤ) < (1000 : ℤ) := by omega
    simp [searchTicketsAll, hK, h1]

/-- Witness for searchCapPolicy at caps 0 and 1001. -/
theorem searchCapPolicy_w :
    searchTicketsAll (pagedEnv []) 0 none 1 =
      .error ⟨"max_results must be at least 1", none, none⟩ ∧
    searchTicketsAll (pagedEnv []) 1001 none 3 =
      searchTicketsAll (pagedEnv []) 1000 none 3 :=
  ⟨searchCapPolicy.1 (pagedEnv []) 0 none 1 (by decide),
   searchCapPolicy.2 (pagedEnv []) 1001 none 3 (by decide)⟩

/-- C5: during a stale-cache refresh, a failure of either directory
drain leaves the stored cache exactly as it was and surfaces the
failure dict built from the fetch error; the last conjunct shows that
dict carries the collaborator's status code and body whenever the error
was a status error. -/
theorem lookupRefreshAtomic (envA envG : PageEnv) (now : ℚ) (cache : Option CacheVal)
    (fuel : ℕ) (e : FetchErr) (hstale : cacheStale cache now = true) :
    (drainLoop envA fuel 1 [] = .error e →
      getAgentLookup envA envG now cache fuel =
        (cache, .failure (mkFail "Failed to fetch agents: "
          "Unexpected error fetching agents: " e))) ∧
    (∀ arecs, drainLoop envA fuel 1 [] = .ok arecs →
      drainLoop envG fuel 1 [] = .error e →
      getAgentLookup envA envG now cache fuel =
        (cache, .failure (mkFail "Failed to fetch groups: "
          "Unexpected error fetching groups: " e))) ∧
    (∀ c d m, mkFail "Failed to fetch agents: " "Unexpected error fetching agents: "
      (.httpStatus c d m) = ⟨"Failed to fetch agents: " ++ m, c, d⟩) := by
  have href : getAgentLookup envA envG now cache fuel =
      lookupRefresh envA envG now cache fuel := by
    cases cache with
    | none => rfl
    | some c =>
        have hc : ¬ now - c.timestamp < 300 := by simpa [cacheStale] using hstale
        simp [getAgentLookup, hc]
  refine ⟨fun hA => ?_, fun arecs hA hG => ?_, fun c d m => rfl⟩
  · rw [href]; simp [lookupRefresh, hA]
  · rw [href]; simp [lookupRefresh, hA, hG]

/-- Witness for lookupRefreshAtomic: an empty cache, an agents endpoint
failing with a 500 and a body. -/
theorem lookupRefreshAtomic_w :
    getAgentLookup envFail envEmptyPage 0 none 1 =
      (none, .failure ⟨"Failed to fetch agents: E", some 500, some "boom"⟩) :=
  (lookupRefreshAtomic envFail envEmptyPage 0 none 1
      (.httpStatus (some 500) (some "boom") "E") (by decide)).1 (by decide)

/-- C3: evaluating the workload fold at an agent whose single resolved
ticket has resolution time exactly 0.0 hours: the resolution-time list
is [0] (non-empty) yet the reported avg_resolution_hours is None,
because the output guard `round(x, 2) if x else None` (server.py 3912)
treats the 0.0 mean as falsy; the second conjunct shows the mean the
claim requires is 0. -/
theorem workloadZeroAvgBug :
    workloadAgents iso2024 [] [zeroResTicket] =
      [{ agent_id := .pyInt 9, agent_name := .pyStr "Agent-9",
         email := .pyStr "unknown", tickets_assigned := 1, tickets_resolved := 1,
         tickets_closed := 0, tickets_open := 0,
         avg_resolution_hours := none, resolution_times := [0] }] ∧
    avgOpt [0] = some 0 := by
  have hres : resolutionTimes iso2024 [zeroResTicket] = [0] := by
    simp [resolutionTimes, zeroResTicket, Rec.get, pyOr, PyVal.truthy,
      calcResolutionTime, iso2024]
  have havg : avgOpt ([0] : List ℚ) = some 0 := by simp [avgOpt]
  have hround : roundTo 2 (0 : ℚ) = 0 := by simp [roundTo, halfEven]
  have hrid : zeroResTicket.get "responder_id" = PyVal.pyInt 9 := by decide
  have hc4 : countStatus [zeroResTicket] 4 = 1 := by decide
  have hc5 : countStatus [zeroResTicket] 5 = 0 := by decide
  have hc2 : countStatus [zeroResTicket] 2 = 0 := by decide
  have hn : "Agent-" ++ toString (9 : ℤ) = "Agent-9" := by decide
  refine ⟨?_, havg⟩
  simp [workloadAgents, groupByResponder, hrid, PyVal.truthy, bucketAdd,
    stableSortBy, stableInsert, agentMetricsOf, lookupVal, hres, havg, hround,
    reportedAvg, hc4, hc5, hc2, hn, PyVal.str]

/-- C7 counterexample: with period=None (a value of the declared
Optional[str] parameter type) and created_after absent, the operation
raises AttributeError past its boundary instead of returning a
discriminated failure result. -/
theorem workloadNonePeriodRaises :
    getAgentWorkload iso2024 fmt0 0 (.ok ([], [])) envNoTickets
      (some 1) none none none none 1 = .error .attributeError := by decide

/-- C7 amended: for every period string that _parse_period rejects with
a ValueError while created_after is absent (and the id validation
passes), get_agent_workload returns a validation-failure result carrying
the parser's message, for every environment — no fetch happens, nothing
is silently defaulted, no exception escapes on this path. -/
theorem workloadInvalidPeriod (iso : String → Option ℚ) (isoFmt : ℚ → String) (now : ℚ)
    (lookup : Except FailInfo (AgentsDict × GroupsDict)) (env : String → PageEnv)
    (a : ℤ) (group_id : Option ℤ) (s : String) (cb : Option String) (fuel : ℕ)
    (m : String) (hp : parsePeriod now (some s) = .error (.valueError m)) :
    getAgentWorkload iso isoFmt now lookup env (some a) group_id (some s) none cb fuel =
      .ok (.failure (.validation m)) := by
  simp [getAgentWorkload, hp]

/-- Witness for workloadInvalidPeriod at the malformed period "1m". -/
theorem workloadInvalidPeriod_w :
    getAgentWorkload iso2024 fmt0 0 (.ok ([], [])) envNoTickets (some 1) none
      (some "1m") none none 1 =
      .ok (.failure (.validation
        "Invalid period format: 1m. Use format like '7d', '30d', '90d'")) :=
  workloadInvalidPeriod iso2024 fmt0 0 (.ok ([], [])) envNoTickets 1 none "1m" none 1
    "Invalid period format: 1m. Use format like '7d', '30d', '90d'" (by decide)

/-- C10: with both agent_id and group_id supplied, get_agent_workload
accepts the call (validation only rejects both absent), the ticket query
filters solely by responder_id — it is literally the responder query and
does not change with the group id — and the group id's only use is
resolving the output's group_name through the directory. -/
theorem workloadBothIds (iso : String → Option ℚ) (isoFmt : ℚ → String) (now : ℚ)
    (aDir : AgentsDict) (gDir : GroupsDict) (env : String → PageEnv)
    (a g : ℤ) (ca cb : String) (fuel : ℕ) (ts : List Rec)
    (hw : uncappedWalk (env (workloadQuery (some a) (some g) ca cb)) fuel 1 [] = .ok ts) :
    workloadQuery (some a) (some g) ca cb =
      "responder_id:" ++ toString a ++ " AND created_at:>'" ++ ca ++
        "' AND created_at:<'" ++ cb ++ "'" ∧
    (∀ g2 : Option ℤ, workloadQuery (some a) g2 ca cb =
      workloadQuery (some a) (some g) ca cb) ∧
    getAgentWorkload iso isoFmt now (.ok (aDir, gDir)) env (some a) (some g) none
      (some ca) (some cb) fuel =
      .ok (.success ⟨workloadAgents iso aDir ts, ca, cb, groupNameOf gDir (some g)⟩) := by
  refine ⟨rfl, fun g2 => rfl, ?_⟩
  simp [getAgentWorkload, workloadAfterDates, hw]

lemma linkNext_empty : linkNext "" = none := by decide

lemma truthy_linkNext_empty : truthyPage (linkNext "") = false := by decide

lemma drainLoop_cursor (rs : ℕ → List Rec) (hs : ℕ → String) (N : ℕ)
    (hN : rs N = []) (hNe : ∀ q, 1 ≤ q → q < N → rs q ≠ [])
    (hMono : ∀ q, 1 ≤ q → rs q = [] → rs (q + 1) = [])
    (hNext : ∀ p, 1 ≤ p → linkNext (hs p) =
      (if rs (p + 1) = [] then none else some (p + 1))) :
    ∀ (f p : ℕ) (acc : List Rec), 1 ≤ p → p ≤ N → N + 1 ≤ f + p →
      drainLoop (mkEnv rs hs) f p acc = .ok (acc ++ pagesFrom rs p (N - p)) := by
  intro f
  induction f with
  | zero => intro p acc h1 h2 h3; omega
  | succ f ih =>
      intro p acc h1 h2 h3
      simp only [drainLoop, mkEnv]
      by_cases hpN : p = N
      · subst hpN
        have hN1 : rs (p + 1) = [] := hMono p h1 hN
        rw [hNext p h1, if_pos hN1]
        simp [hN, Nat.sub_self, pagesFrom]
      · have hplt : p < N := lt_of_le_of_ne h2 hpN
        rw [hNext p h1]
        by_cases hp1 : rs (p + 1) = []
        · have hpN1 : p + 1 = N := by
            by_contra hne2
            exact hNe (p + 1) (by omega) (by omega) hp1
          rw [if_pos hp1]
          have hsub : N - p = 1 := by omega
          simp [hsub, pagesFrom]
        · rw [if_neg hp1]
          have hne0 : p + 1 ≠ 0 := by omega
          show (if p + 1 ≠ 0 then drainLoop (mkEnv rs hs) f (p + 1) (acc ++ rs p)
              else Except.ok (acc ++ rs p)) = Except.ok (acc ++ pagesFrom rs p (N - p))
          rw [if_pos hne0]
          rw [ih (p + 1) (acc ++ rs p) (by omega) (by omega) (by omega)]
          have hsub : N - p = (N - (p + 1)) + 1 := by omega
          rw [List.append_assoc, hsub]
          rfl

lemma uncappedWalk_cursor (rs : ℕ → List Rec) (hs : ℕ → String) (N : ℕ)
    (hN : rs N = []) (hNe : ∀ q, 1 ≤ q → q < N → rs q ≠ [])
    (hNext : ∀ p, 1 ≤ p → linkNext (hs p) =
      (if rs (p + 1) = [] then none else some (p + 1))) :
    ∀ (f p : ℕ) (acc : List Rec), 1 ≤ p → p ≤ N → N + 1 ≤ f + p →
      uncappedWalk (mkEnv rs hs) f p acc = .ok (acc ++ pagesFrom rs p (N - p)) := by
  intro f
  induction f with
  | zero => intro p acc h1 h2 h3; omega
  | succ f ih =>
      intro p acc h1 h2 h3
      simp only [uncappedWalk, mkEnv]
      by_cases hpN : p = N
      · subst hpN
        rw [if_pos hN]
        simp [Nat.sub_self, pagesFrom]
      · have hplt : p < N := lt_of_le_of_ne h2 hpN
        have hrsp : rs p ≠ [] := hNe p h1 hplt
        rw [if_neg hrsp, hNext p h1]
        by_cases hp1 : rs (p + 1) = []
        · have hpN1 : p + 1 = N := by
            by_contra hne2
            exact hNe (p + 1) (by omega) (by omega) hp1
          rw [if_pos hp1]
          by_cases hlen : (rs p).length < 30
          · rw [if_pos ⟨hlen, rfl⟩]
            have hsub : N - p = 1 := by omega
            simp [hsub, pagesFrom]
          · rw [if_neg (by rintro ⟨hc, -⟩; exact hlen hc)]
            rw [ih (p + 1) (acc ++ rs p) (by omega) (by omega) (by omega)]
            have hsub : N - p = (N - (p + 1)) + 1 := by omega
            rw [List.append_assoc, hsub]
            rfl
        · rw [if_neg hp1]
          have hcond : ¬ ((rs p).length < 30 ∧ truthyPage (some (p + 1)) = false) := by
            rintro ⟨-, hc⟩
            simp [truthyPage] at hc
          rw [if_neg hcond]
          rw [ih (p + 1) (acc ++ rs p) (by omega) (by omega) (by omega)]
          have hsub : N - p = (N - (p + 1)) + 1 := by omega
          rw [List.append_assoc, hsub]
          rfl

/-- C6 counterexample: a cursor-less backing endpoint with pages of
sizes [30, 1] (31 records).  The refresh drain stops after page 1 with
30 records because no next cursor is present, while the uncapped walker
loop of the very same module — seeing a full page — continues and
collects all 31: the refresh does NOT drain the record set an uncapped
walker run against the same endpoint collects. -/
theorem refreshDrainShortfall :
    (drainLoop env31 5 1 []).map List.length = .ok 30 ∧
    (uncappedWalk env31 5 1 []).map List.length = .ok 31 ∧
    drainLoop env31 5 1 [] ≠ uncappedWalk env31 5 1 [] := by
  have h30 : (drainLoop env31 5 1 []).map List.length = .ok 30 := by decide
  have h31 : (uncappedWalk env31 5 1 []).map List.length = .ok 31 := by decide
  refine ⟨h30, h31, fun heq => ?_⟩
  rw [heq, h31] at h30
  exact absurd h30 (by decide)

/-- C6 amended: the refresh loop stops solely when the parsed Link
header carries no truthy next page.  Against an endpoint that emits a
next cursor pointing at page p+1 exactly while page p+1 still holds
records (pages empty from N on, non-empty before N), the refresh drains
the same complete record set as the uncapped walker loop, for every such
backing store; but against a cursor-less endpoint the refresh keeps only
the first page even when more data exists (see the counterexample) — the
dual stopping signal (zero-record page, or short page with no cursor)
lives only in the ticket-collection loops, not in the refresh. -/
theorem refreshDrainCursorComplete (rs : ℕ → List Rec) (hs : ℕ → String) (N : ℕ)
    (h1 : 1 ≤ N) (hN : rs N = [])
    (hNe : ∀ q, 1 ≤ q → q < N → rs q ≠ [])
    (hMono : ∀ q, 1 ≤ q → rs q = [] → rs (q + 1) = [])
    (hNext : ∀ p, 1 ≤ p → linkNext (hs p) =
      (if rs (p + 1) = [] then none else some (p + 1)))
    (fuel : ℕ) (hf : N ≤ fuel) :
    drainLoop (mkEnv rs hs) fuel 1 [] = uncappedWalk (mkEnv rs hs) fuel 1 [] ∧
    drainLoop (mkEnv rs hs) fuel 1 [] = .ok (pagesFrom rs 1 (N - 1)) := by
  have hd := drainLoop_cursor rs hs N hN hNe hMono hNext fuel 1 [] (by omega) h1 (by omega)
  have hu := uncappedWalk_cursor rs hs N hN hNe hNext fuel 1 [] (by omega) h1 (by omega)
  refine ⟨?_, ?_⟩
  · rw [hd, hu]
  · rw [hd]
    simp

/-- Witness for refreshDrainCursorComplete: a single 1-record page,
no cursor emitted because page 2 is already empty. -/
theorem refreshDrainCursorComplete_w :
    drainLoop (mkEnv rsW hsW) 2 1 [] = uncappedWalk (mkEnv rsW hsW) 2 1 [] ∧
    drainLoop (mkEnv rsW hsW) 2 1 [] = .ok (pagesFrom rsW 1 1) := by
  have h := refreshDrainCursorComplete rsW hsW 2 (by decide) (by decide)
    (fun q hq1 hq2 => by
      have hq : q = 1 := by omega
      subst hq
      decide)
    (fun q hq h0 => by
      have hne : ¬ q + 1 = 1 := by omega
      simp [rsW, hne])
    (fun p hp => by
      have hne : ¬ p + 1 = 1 := by omega
      simp [rsW, hsW, hne, linkNext_empty])
    2 (by decide)
  simpa using h

lemma searchLoop_paged (all : List Rec) (K : ℕ) :
    ∀ (f p n : ℕ), 1 ≤ p → n = (p - 1) * 30 → n ≤ all.length → n < K →
      all.length + 1 ≤ f + n →
      ∃ pg, searchLoop (pagedEnv all) K none f p (all.take n) =
        .ok ⟨all.take (min all.length K), min all.length K, pg,
          decide (K ≤ all.length)⟩ := by
  intro f
  induction f with
  | zero => intro p n h1 hn hnM hnK hf; omega
  | succ f ih =>
      intro p n h1 hn hnM hnK hf
      have hMn : ((all.drop n).take 30).length = min 30 (all.length - n) := by
        simp [List.length_take, List.length_drop]
      simp only [searchLoop, pagedEnv]
      rw [show chunkAt all p = (all.drop n).take 30 from by rw [chunkAt, hn]]
      by_cases hemp : (all.drop n).take 30 = []
      · rw [if_pos hemp]
        have hM : n = all.length := by
          rw [hemp] at hMn
          simp at hMn
          omega
        subst hM
        have hmin : min all.length K = all.length := by omega
        refine ⟨p, ?_⟩
        simp [hmin, List.take_length, show ¬ K ≤ all.length from by omega]
      · rw [if_neg hemp]
        simp only [applyFields]
        rw [← List.take_add]
        have hlacc : (all.take (n + 30)).length = min (n + 30) all.length := by
          simp [List.length_take]
        by_cases hcap : K ≤ (all.take (n + 30)).length
        · rw [if_pos hcap]
          have hKM : K ≤ all.length := by omega
          have hmin : min all.length K = K := by omega
          refine ⟨p, ?_⟩
          rw [List.take_take]
          have hminK : min K (n + 30) = K := by omega
          have hlen : ((all.take (n + 30)).take K).length = K := by
            simp [List.length_take]
            omega
          rw [List.take_take] at hlen
          simp [hminK, hmin, hlen, hKM]
        · rw [if_neg hcap]
          by_cases hshort : ((all.drop n).take 30).length < 30
          · rw [if_pos ⟨hshort, truthy_linkNext_empty⟩]
            have hMlt : all.length < n + 30 := by omega
            have hMK : all.length < K := by omega
            have htk : all.take (n + 30) = all := List.take_of_length_le (by omega)
            have hmin : min all.length K = all.length := by omega
            refine ⟨p, ?_⟩
            simp [htk, hmin, List.take_length, show ¬ K ≤ all.length from by omega]
          · rw [if_neg (by rintro ⟨hc, -⟩; exact hshort hc)]
            have hfull : min 30 (all.length - n) = 30 := by omega
            have hrec := ih (p + 1) (n + 30) (by omega) (by omega) (by omega)
              (by omega) (by omega)
            exact hrec

/-- C1 counterexample: a backing collection of size M = 1 walked with
accepted cap K = 1 (the M = K boundary): the result holds all M records
yet reports truncated = true, where the claim requires truncated = false
whenever M ≤ K. -/
theorem searchCapEdge :
    searchTicketsAll (pagedEnv [oneRec]) 1 none 3 = .ok ⟨[oneRec], 1, 1, true⟩ := by
  decide

/-- C1 amended: for every cursor-less backing collection of size M
served in 30-record pages with every fetch succeeding, and every
accepted cap 1 ≤ K ≤ 1000, the walk succeeds with
total_fetched = len(tickets) = min M K ≤ K, and truncated is true
exactly when M ≥ K (the cap check fires), false exactly when M < K; in
particular at M = K the result holds all M records with truncated =
true, not false as originally claimed. -/
theorem searchCapLaw (all : List Rec) (K : ℤ) (hK1 : 1 ≤ K) (hK2 : K ≤ 1000) :
    ∃ pg, searchTicketsAll (pagedEnv all) K none (all.length + 2) =
      .ok ⟨all.take (min all.length K.toNat), min all.length K.toNat, pg,
        decide (K.toNat ≤ all.length)⟩ := by
  have hcl : ¬ (1000 : ℤ) < K := by omega
  have hv : ¬ K < 1 := by omega
  have h := searchLoop_paged all K.toNat (all.length + 2) 1 0 (by omega)
    (by omega) (by omega) (by omega) (by omega)
  simp only [searchTicketsAll, if_neg hcl, if_neg hv]
  simpa using h

/-- Witness for searchCapLaw at M = 1, K = 3. -/
theorem searchCapLaw_w :
    ∃ pg, searchTicketsAll (pagedEnv [oneRec]) 3 none ([oneRec].length + 2) =
      .ok ⟨[oneRec].take (min [oneRec].length (3 : ℤ).toNat),
        min [oneRec].length (3 : ℤ).toNat, pg,
        decide ((3 : ℤ).toNat ≤ [oneRec].length)⟩ :=
  searchCapLaw [oneRec] 3 (by decide) (by decide)

lemma roundTo_eq_of_lt_half (n : ℕ) (q : ℚ) (z : ℤ)
    (h1 : (z : ℚ) ≤ q * 10 ^ n) (h2 : q * 10 ^ n - (z : ℚ) < 1 / 2) :
    roundTo n q = (z : ℚ) / 10 ^ n := by
  have hf : ⌊q * 10 ^ n⌋ = z := by
    rw [Int.floor_eq_iff]
    refine ⟨h1, ?_⟩
    linarith
  simp only [roundTo, halfEven, hf]
  rw [if_pos h2]

lemma roundTo_eq_of_gt_half (n : ℕ) (q : ℚ) (z : ℤ)
    (h1 : (z : ℚ) ≤ q * 10 ^ n) (h3 : q * 10 ^ n < (z : ℚ) + 1)
    (h2 : 1 / 2 < q * 10 ^ n - (z : ℚ)) :
    roundTo n q = ((z : ℚ) + 1) / 10 ^ n := by
  have hf : ⌊q * 10 ^ n⌋ = z := by
    rw [Int.floor_eq_iff]
    refine ⟨h1, ?_⟩
    linarith
  simp only [roundTo, halfEven, hf]
  rw [if_neg (by linarith), if_pos h2]
  push_cast
  ring

lemma teamLoop_ok (iso : String → Option ℚ) (aDir : AgentsDict) (gDir : GroupsDict)
    (envOf : ℤ → PageEnv) (fuel : ℕ) (coll : ℤ → List Rec) :
    ∀ (gids : List ℤ) (comps : List GroupComp) (tot : ℕ) (rates : List ℚ),
      (∀ g ∈ gids, uncappedWalk (envOf g) fuel 1 [] = .ok (coll g)) →
      teamLoop iso aDir gDir envOf fuel gids comps tot rates = .success
        ⟨comps ++ gids.map (fun g => analyzeGroup iso aDir gDir g (coll g)),
         tot + (gids.map (fun g => (coll g).length)).sum,
         roundTo 3
           (if rates ++ gids.map (fun g => exactClosureRate (coll g)) = [] then 0
            else (rates ++ gids.map (fun g => exactClosureRate (coll g))).sum /
              (rates ++ gids.map (fun g => exactClosureRate (coll g))).length)⟩ := by
  intro gids
  induction gids with
  | nil => intro comps tot rates h; simp [teamLoop]
  | cons g rest ih =>
      intro comps tot rates h
      have hg := h g (by simp)
      have hr : ∀ g2 ∈ rest, uncappedWalk (envOf g2) fuel 1 [] = .ok (coll g2) :=
        fun g2 hg2 => h g2 (by simp [hg2])
      simp only [teamLoop, hg]
      rw [ih _ _ _ hr]
      simp [List.map_cons, List.sum_cons, List.append_assoc, Nat.add_assoc]

/-- C4 counterexample: on the team comparison of groups [1, 2] where
group 1 holds three tickets with one resolved, the operation reports
closure_rate = 333/1000 for group 1 — the 3-decimal rounding — while
the exact ratio (resolved + closed) / total is 1/3, and the two differ;
the summary average (167/1000) is likewise rounded. -/
theorem teamClosureRounded :
    teamComparisonCore iso2024 [] [] envTeam [1, 2] 3 = .success
      ⟨[analyzeGroup iso2024 [] [] 1 [tickR, tickO, tickO],
        analyzeGroup iso2024 [] [] 2 []], 3, 167 / 1000⟩ ∧
    (analyzeGroup iso2024 [] [] 1 [tickR, tickO, tickO]).closure_rate = 333 / 1000 ∧
    (analyzeGroup iso2024 [] [] 1 [tickR, tickO, tickO]).resolved_tickets = 1 ∧
    (analyzeGroup iso2024 [] [] 1 [tickR, tickO, tickO]).closed_tickets = 0 ∧
    (analyzeGroup iso2024 [] [] 1 [tickR, tickO, tickO]).total_tickets = 3 ∧
    (333 : ℚ) / 1000 ≠ ((1 : ℚ) + 0) / 3 := by
  have h4 : countStatus [tickR, tickO, tickO] 4 = 1 := by decide
  have h5 : countStatus [tickR, tickO, tickO] 5 = 0 := by decide
  have hcr : exactClosureRate [tickR, tickO, tickO] = 1 / 3 := by
    simp [exactClosureRate, h4, h5]
  have hcr0 : exactClosureRate [] = 0 := by simp [exactClosureRate]
  have hr13 : roundTo 3 ((1 : ℚ) / 3) = 333 / 1000 := by
    have := roundTo_eq_of_lt_half 3 (1 / 3) 333 (by norm_num) (by norm_num)
    simpa using this
  have hr16 : roundTo 3 ((1 : ℚ) / 3 / 2) = 167 / 1000 := by
    have := roundTo_eq_of_gt_half 3 (1 / 3 / 2) 166 (by norm_num) (by norm_num)
      (by norm_num)
    rw [this]
    norm_num
  have hw1 : uncappedWalk (envTeam 1) 3 1 [] = .ok [tickR, tickO, tickO] := by decide
  have hw2 : uncappedWalk (envTeam 2) 3 1 [] = .ok [] := by decide
  refine ⟨?_, ?_, rfl, rfl, rfl, by norm_num⟩
  · rw [show teamComparisonCore iso2024 [] [] envTeam [1, 2] 3 =
        teamLoop iso2024 [] [] envTeam 3 [1, 2] [] 0 [] from rfl]
    simp only [teamLoop, hw1, hw2]
    simp [hcr, hcr0]
    rw [show ((3 : ℚ)⁻¹ / 2) = 1 / 3 / 2 by norm_num]
    exact hr16
  · show roundTo 3 (exactClosureRate [tickR, tickO, tickO]) = 333 / 1000
    rw [hcr, hr13]

/-- C4 amended: for every comparison in which each group's collection
succeeds, the operation reports per group the 3-decimal rounding of the
exact closure rate (resolved + closed) / total — which is 0 for a group
with zero tickets, never a division failure — and a summary whose
average_closure_rate is the 3-decimal rounding of the unweighted
arithmetic mean of the groups' exact rates (ticket counts do not weight
it). -/
theorem teamClosurePolicy (iso : String → Option ℚ) (aDir : AgentsDict)
    (gDir : GroupsDict) (envOf : ℤ → PageEnv) (fuel : ℕ) (gids : List ℤ)
    (coll : ℤ → List Rec) (h2 : 2 ≤ gids.length) (h10 : gids.length ≤ 10)
    (hw : ∀ g ∈ gids, uncappedWalk (envOf g) fuel 1 [] = .ok (coll g)) :
    teamComparisonCore iso aDir gDir envOf gids fuel = .success
      ⟨gids.map (fun g => analyzeGroup iso aDir gDir g (coll g)),
       (gids.map (fun g => (coll g).length)).sum,
       roundTo 3 ((gids.map (fun g => exactClosureRate (coll g))).sum / gids.length)⟩ ∧
    (∀ g, (analyzeGroup iso aDir gDir g (coll g)).closure_rate =
      roundTo 3 (exactClosureRate (coll g))) ∧
    (∀ ts : List Rec, ts.length = 0 → exactClosureRate ts = 0) := by
  refine ⟨?_, fun g => rfl, fun ts hts => by simp [exactClosureRate, hts]⟩
  have hne : gids ≠ [] := by
    intro h
    subst h
    simp at h2
  have hv1 : ¬ gids.length < 2 := by omega
  have hv2 : ¬ 10 < gids.length := by omega
  unfold teamComparisonCore
  rw [if_neg hv1, if_neg hv2]
  rw [teamLoop_ok iso aDir gDir envOf fuel coll gids [] 0 [] hw]
  have hmapne : gids.map (fun g => exactClosureRate (coll g)) ≠ [] := by
    simpa using hne
  simp [hmapne]

/-- Witness for teamClosurePolicy at the two-group fixture. -/
theorem teamClosurePolicy_w :
    teamComparisonCore iso2024 [] [] envTeam [1, 2] 3 = .success
      ⟨[analyzeGroup iso2024 [] [] 1 [tickR, tickO, tickO],
        analyzeGroup iso2024 [] [] 2 []],
       3,
       roundTo 3 ((exactClosureRate [tickR, tickO, tickO] + exactClosureRate []) / 2)⟩ := by
  have h := teamClosurePolicy iso2024 [] [] envTeam 3 [1, 2]
    (fun g => if g = 1 then [tickR, tickO, tickO] else []) (by decide) (by decide)
    (by decide)
  simpa using h.1

/-- Witness for workloadBothIds: both ids supplied, empty backing. -/
theorem workloadBothIds_w :
    getAgentWorkload iso2024 fmt0 0 (.ok ([], [])) envNoTickets (some 5) (some 3) none
      (some "A") (some "B") 1 =
      .ok (.success ⟨[], "A", "B", none⟩) :=
  (workloadBothIds iso2024 fmt0 0 [] [] envNoTickets 5 3 "A" "B" 1 [] (by decide)).2.2
